import Mathlib

/-
Verification of the AutoFlasher core: the J-Link command-script builder and
the output classifier.

The embedding models Python text as `List Char`.  Python regular-expression
matching is modelled by a small backtracking matcher over token lists; the
only constructs the source patterns use are case-insensitive literals,
greedy dot-star, greedy whitespace-star and a word boundary.  Character
classes are modelled at ASCII granularity, matching the ASCII-only pattern
strings of the source.

Sources embedded:
  autoflasher/flasher_service.py   (FlasherService.analyze_output,
                                    FlasherService.get_device_line,
                                    FlasherService.build_script)
  AutoFlasher/jlink_commands.py    (the command classes and their render
                                    methods; the identically named module of
                                    the lowercase package, which defines the
                                    same classes, is imported by
                                    flasher_service.py)
-/

namespace AutoFlasher

/-- ASCII lower-casing of one character, as used for case-insensitive
matching (models Python str.lower at ASCII granularity). -/
def lowerChar (c : Char) : Char :=
  if 'A' ≤ c ∧ c ≤ 'Z' then Char.ofNat (c.toNat + 32) else c

/-- ASCII upper-casing of one character (models Python str.upper at ASCII
granularity). -/
def upperChar (c : Char) : Char :=
  if 'a' ≤ c ∧ c ≤ 'z' then Char.ofNat (c.toNat - 32) else c

/-- Lower-cases a text (models Python str.lower). -/
def toLowerList (s : List Char) : List Char := s.map lowerChar

/-- Upper-cases a text (models Python str.upper). -/
def toUpperList (s : List Char) : List Char := s.map upperChar

/-- Whitespace characters of Python str.strip and of the regex class \s,
at ASCII granularity. -/
def isPySpace (c : Char) : Bool :=
  c == ' ' || c == '\t' || c == '\n' || c == '\r' ||
  c == '\x0b' || c == '\x0c'

/-- Word characters of the regex class \w, at ASCII granularity. -/
def isWordChar (c : Char) : Bool :=
  ('a' ≤ c ∧ c ≤ 'z') || ('A' ≤ c ∧ c ≤ 'Z') || ('0' ≤ c ∧ c ≤ '9') || c == '_'

/-- Whether an optional adjacent character is a word character; the edge of
the text counts as a non-word character. -/
def wordOpt : Option Char → Bool
  | none => false
  | some c => isWordChar c

/-- The regex word boundary \b between a preceding character and the rest of
the text. -/
def boundaryAt (prev : Option Char) (s : List Char) : Bool :=
  wordOpt prev != wordOpt s.head?

/-- Models Python str.strip: removes leading and trailing whitespace. -/
def pyStrip (s : List Char) : List Char :=
  ((s.dropWhile isPySpace).reverse.dropWhile isPySpace).reverse

/-- Whether `pre` is a leading segment of `s`. -/
def leadsWith : List Char → List Char → Bool
  | [], _ => true
  | _ :: _, [] => false
  | a :: as, b :: bs => a == b && leadsWith as bs

/-- Whether `needle` occurs as a contiguous segment of `hay` (models the
Python substring operator `in`). -/
def containsSub (needle : List Char) : List Char → Bool
  | [] => needle.isEmpty
  | h :: tl => leadsWith needle (h :: tl) || containsSub needle tl

/-- One token of a source regular expression.  The source patterns use only
case-insensitive literal characters, greedy `.*`, greedy whitespace-star and
the word boundary. -/
inductive Tok
  | lit (c : Char)
  | anyStar
  | wsStar
  | wordB

/-- Backtracking matcher for a token list at the head of `s`, with `prev`
the character just before the current position (for the word boundary) and
an explicit fuel.  Returns the matched segment and the rest of the text.
Star tokens are greedy with backtracking, `.` does not match a newline, and
literals compare case-insensitively, following the source's use of
re.IGNORECASE on every pattern.  Every recursive call decreases
tokens-remaining plus text-remaining, so fuel `ts.length + s.length + 1`
always suffices; the wrappers below supply it. -/
def matchToksF : Nat → List Tok → Option Char → List Char →
    Option (List Char × List Char)
  | 0, _, _, _ => none
  | _ + 1, [], _, s => some ([], s)
  | _ + 1, .lit _ :: _, _, [] => none
  | fuel + 1, .lit c :: ts, _, x :: xs =>
    if lowerChar x == lowerChar c then
      match matchToksF fuel ts (some x) xs with
      | some (m, r) => some (x :: m, r)
      | none => none
    else none
  | fuel + 1, .wordB :: ts, prev, s =>
    if boundaryAt prev s then matchToksF fuel ts prev s else none
  | fuel + 1, .anyStar :: ts, prev, [] => matchToksF fuel ts prev []
  | fuel + 1, .anyStar :: ts, prev, x :: xs =>
    if x == '\n' then matchToksF fuel ts prev (x :: xs)
    else
      match matchToksF fuel (.anyStar :: ts) (some x) xs with
      | some (m, r) => some (x :: m, r)
      | none => matchToksF fuel ts prev (x :: xs)
  | fuel + 1, .wsStar :: ts, prev, [] => matchToksF fuel ts prev []
  | fuel + 1, .wsStar :: ts, prev, x :: xs =>
    if isPySpace x then
      match matchToksF fuel (.wsStar :: ts) (some x) xs with
      | some (m, r) => some (x :: m, r)
      | none => matchToksF fuel ts prev (x :: xs)
    else matchToksF fuel ts prev (x :: xs)

/-- Tries a match at the head of `s`. -/
def matchHere (ts : List Tok) (prev : Option Char) (s : List Char) :
    Option (List Char × List Char) :=
  matchToksF (ts.length + s.length + 1) ts prev s

/-- Whether the pattern matches anywhere at or after the current position
(models re.search): positions are tried left to right. -/
def searchF : Nat → List Tok → Option Char → List Char → Bool
  | 0, _, _, _ => false
  | fuel + 1, ts, prev, s =>
    match matchHere ts prev s with
    | some _ => true
    | none =>
      match s with
      | [] => false
      | x :: xs => searchF fuel ts (some x) xs

/-- Models re.search on a whole text. -/
def searchPat (ts : List Tok) (t : List Char) : Bool :=
  searchF (t.length + 1) ts none t

/-- All non-overlapping matches, scanning left to right and resuming after
each match (models re.finditer; a zero-width match is emitted and the scan
advances one character, as in Python — the source patterns can never match
the empty string, since each begins with a literal). -/
def findAllF : Nat → List Tok → Option Char → List Char → List (List Char)
  | 0, _, _, _ => []
  | fuel + 1, ts, prev, s =>
    match matchHere ts prev s with
    | some ([], _) =>
      match s with
      | [] => [[]]
      | x :: xs => [] :: findAllF fuel ts (some x) xs
    | some (m, r) => m :: findAllF fuel ts m.getLast? r
    | none =>
      match s with
      | [] => []
      | x :: xs => findAllF fuel ts (some x) xs

/-- Models re.finditer on a whole text, keeping each match's text. -/
def findAll (ts : List Tok) (t : List Char) : List (List Char) :=
  findAllF (t.length + 1) ts none t

/-- Builds a case-insensitive literal pattern from a string. -/
def lits (s : String) : List Tok := s.data.map Tok.lit

/-- The fatal-error patterns of FlasherService.analyze_output, in the order
the source lists them (flasher_service.py lines 159-172). -/
def errorPatterns : List (List Tok) :=
  [ lits ("Target voltage too low"),
    lits ("Could not connect to the target device"),
    lits ("Error occurred:") ++ [Tok.anyStar],
    lits ("Unspecified error") ++ [Tok.wordB],
    lits ("Failed to prepare for programming"),
    lits ("Failed to download RAMCode"),
    lits ("Verification of RAMCode failed"),
    lits ("Cannot connect"),
    lits ("Connection failed"),
    lits ("Cannot identify target"),
    lits ("J-Link") ++ [Tok.anyStar] ++ lits ("error"),
    lits ("Error:") ]

/-- The matches collected by the error loop of analyze_output: for each
pattern in order, every match in the text, in the order found
(flasher_service.py lines 174-177). -/
def collectErrors (t : List Char) : List (List Char) :=
  (errorPatterns.map (fun p => findAll p t)).flatten

/-- The pattern of the source regex O\.K\. (a literal). -/
def okPat : List Tok := lits ("O.K.")

/-- The pattern of the source regex Program\s*&\s*Verify. -/
def pvPat : List Tok :=
  lits ("Program") ++ [Tok.wsStar] ++ lits ("&") ++ [Tok.wsStar] ++ lits ("Verify")

/-- The pattern of the source regex Program speed (a literal). -/
def psPat : List Tok := lits ("Program speed")

/-- The lowercase tag whose presence analyze_output requires. -/
def loadfileTag : List Char := ("loadfile").data

/-- An apostrophe character. -/
def apos : Char := Char.ofNat 39

/-- The message of the empty-output branch of analyze_output. -/
def noOutputMsg : List Char := ("No output from J-Link.").data

/-- The message of the missing-loadfile branch of analyze_output. -/
def noLoadfileMsg : List Char :=
  ("No ").data ++ [apos] ++ ("loadfile").data ++ [apos] ++
    (" found in output.").data

/-- The message of the fallback branch of analyze_output. -/
def noMarkerMsg : List Char :=
  ("No success marker (").data ++ [apos] ++ ("O.K.").data ++ [apos] ++
    (") found in output.").data

/-- The FlashOutcome record of flasher_service.py: success flag, error and
warning messages, and the raw analyzed output. -/
structure FlashOutcome where
  success : Bool
  errors : List (List Char)
  warnings : List (List Char)
  raw_output : List Char
deriving DecidableEq

/-- Whether the source's O.K. search succeeds on a text. -/
def okSearch (t : List Char) : Bool := searchPat okPat t

/-- Whether the source's Program-&-Verify search succeeds on a text. -/
def pvSearch (t : List Char) : Bool := searchPat pvPat t

/-- Whether the source's Program-speed search succeeds on a text. -/
def psSearch (t : List Char) : Bool := searchPat psPat t

/-- FlasherService.analyze_output (flasher_service.py lines 145-192):
empty text fails with a no-output message; otherwise the stripped text is
scanned for fatal-error patterns, whose matches veto success; otherwise a
lowercase loadfile tag is required; otherwise one success-marker search
must succeed; otherwise a fallback failure is returned. -/
def analyze_output (text : List Char) : FlashOutcome :=
  if text = [] then
    { success := false, errors := [noOutputMsg], warnings := [], raw_output := [] }
  else if collectErrors (pyStrip text) ≠ [] then
    { success := false, errors := collectErrors (pyStrip text), warnings := [],
      raw_output := text }
  else if containsSub loadfileTag (toLowerList (pyStrip text)) = false then
    { success := false, errors := [noLoadfileMsg], warnings := [], raw_output := text }
  else if okSearch (pyStrip text) = true then
    { success := true, errors := [], warnings := [], raw_output := text }
  else if (pvSearch (pyStrip text) || psSearch (pyStrip text)) = true then
    { success := true, errors := [], warnings := [], raw_output := text }
  else
    { success := false, errors := [noMarkerMsg], warnings := [], raw_output := text }

/-- Disjunction of the three success-marker searches of analyze_output. -/
def successMarkerFound (t : List Char) : Bool :=
  okSearch t || pvSearch t || psSearch t

/-- The decimal digit character for a value below ten. -/
def decDigit (d : Nat) : Char := Char.ofNat (48 + d)

/-- The uppercase hexadecimal digit character for a value below sixteen. -/
def hexDigitU (d : Nat) : Char :=
  if d < 10 then Char.ofNat (48 + d) else Char.ofNat (55 + d)

/-- Accumulator loop producing the decimal digits of a number, most
significant first (models the rendering of an integer in a Python
f-string); the fuel `n + 1` of the wrapper below always suffices. -/
def natDecAux : Nat → Nat → List Char → List Char
  | 0, _, acc => acc
  | fuel + 1, n, acc =>
    if n < 10 then decDigit n :: acc
    else natDecAux fuel (n / 10) (decDigit (n % 10) :: acc)

/-- The decimal rendering of a number, as a Python f-string renders it. -/
def natDec (n : Nat) : List Char := natDecAux (n + 1) n []

/-- Accumulator loop producing the uppercase hexadecimal digits of a
number, most significant first, no leading zeros (models Python X
formatting); the fuel `n + 1` of the wrapper below always suffices. -/
def hexDigitsAux : Nat → Nat → List Char → List Char
  | 0, _, acc => acc
  | fuel + 1, n, acc =>
    if n < 16 then hexDigitU n :: acc
    else hexDigitsAux fuel (n / 16) (hexDigitU (n % 16) :: acc)

/-- The uppercase hexadecimal digits of a number, no leading zeros. -/
def hexUpper (n : Nat) : List Char := hexDigitsAux (n + 1) n []

/-- Zero-padding on the left to a minimum width (models Python 0-padded
format widths). -/
def padZeros (w : Nat) (ds : List Char) : List Char :=
  List.replicate (w - ds.length) '0' ++ ds

/-- Python {:08X} formatting: uppercase hexadecimal, zero-padded to at
least eight digits. -/
def hex8 (n : Nat) : List Char := padZeros 8 (hexUpper n)

/-- Whether a character is an uppercase hexadecimal digit. -/
def isHexUpper (c : Char) : Bool :=
  ('0' ≤ c ∧ c ≤ '9') || ('A' ≤ c ∧ c ≤ 'F')

/-- The numeric value of an uppercase hexadecimal digit character. -/
def hexCharVal (c : Char) : Nat :=
  if c ≤ '9' then c.toNat - 48 else c.toNat - 55

/-- The number denoted by a big-endian list of hexadecimal digit
characters. -/
def hexVal (ds : List Char) : Nat :=
  ds.foldl (fun a c => a * 16 + hexCharVal c) 0

/-- The command classes of jlink_commands.py, as a closed tagged union.
One constructor per class: SuppressGuiCommand, DeviceCommand,
InterfaceCommand, SpeedCommand, ConnectCommand, UnlockKinetisCommand,
ResetCommand, EraseCommand, WriteRegisterCommand, SleepCommand,
LoadFileCommand, CommentCommand, GoCommand, ExitCommand. -/
inductive JLinkCommand
  | suppressGui
  | device (line : List Char)
  | iface (m : List Char)
  | speed (khz : Nat)
  | connect
  | unlockKinetis
  | reset
  | erase
  | writeRegister (width addr value : Nat)
  | sleep (seconds : Nat)
  | loadFile (path : List Char)
  | comment (text : List Char)
  | go
  | fin

/-- The render methods of jlink_commands.py, one line per command.  The
numeric fields are modelled as naturals: the source always supplies
non-negative literals for widths, addresses, values and sleep durations,
and the configured speed is a positive integer. -/
def render : JLinkCommand → List Char
  | .suppressGui => ("SuppressGUI 1").data
  | .device line => line
  | .iface m => ("IF ").data ++ m
  | .speed khz => ("Speed ").data ++ natDec khz
  | .connect => ("connect").data
  | .unlockKinetis => ("unlock kinetis").data
  | .reset => ("r").data
  | .erase => ("erase").data
  | .writeRegister w a v =>
    ("w").data ++ natDec w ++ (" 0x").data ++ hex8 a ++ (", 0x").data ++ hex8 v
  | .sleep s => ("Sleep ").data ++ natDec s
  | .loadFile p => ("loadfile \"").data ++ p ++ ("\" 0x0").data
  | .comment c => ("// ").data ++ c
  | .go => ("g").data
  | .fin => ("exit").data

/-- The device line the DEVICE_LINES table assigns to the IO target. -/
def ioDeviceLine : List Char := ("Device K32L3Axxxxxxxx_M4").data

/-- The device line the DEVICE_LINES table assigns to the DELSYS and LOGO
targets. -/
def k32l2DeviceLine : List Char := ("Device K32L2B31xxxxA").data

/-- FlasherService.get_device_line (flasher_service.py lines 93-94):
looks the upper-cased target up in the three-entry DEVICE_LINES table,
falling back to the IO entry. -/
def get_device_line (target : List Char) : List Char :=
  if toUpperList target = ("IO").data then ioDeviceLine
  else if toUpperList target = ("DELSYS").data then k32l2DeviceLine
  else if toUpperList target = ("LOGO").data then k32l2DeviceLine
  else ioDeviceLine

/-- The IFR-FOPT comment line emitted for the IO target only. -/
def ifrFoptComment : List Char := ("// Program IFR FOPT field (IO only)").data

/-- FlasherService.build_script (flasher_service.py lines 96-126): the
ordered command list built for a target and firmware file, with the
configured interface and speed.  The IFR-FOPT block is inserted after the
load-file command exactly when the upper-cased target is IO. -/
def build_script_cmds (iface : List Char) (speed_khz : Nat)
    (target firmware_file : List Char) : List JLinkCommand :=
  [ .device (get_device_line target),
    .iface iface,
    .speed speed_khz,
    .connect,
    .unlockKinetis,
    .reset,
    .erase,
    .writeRegister 4 0x40023004 0x44000000,
    .writeRegister 1 0x40023000 0x70,
    .writeRegister 1 0x40023000 0x80,
    .sleep 5,
    .loadFile firmware_file ] ++
  (if toUpperList target = ("IO").data then
    [ .comment ("Program IFR FOPT field (IO only)").data,
      .writeRegister 4 0x40023004 0x43840000,
      .writeRegister 4 0x40023008 0xFFFFF3FF,
      .writeRegister 1 0x40023000 0x70,
      .writeRegister 1 0x40023000 0x80,
      .sleep 5 ]
   else []) ++
  [ .reset, .go, .fin ]

/-- The rendered lines of the built script, in emission order. -/
def script_lines (iface : List Char) (speed_khz : Nat)
    (target firmware_file : List Char) : List (List Char) :=
  (build_script_cmds iface speed_khz target firmware_file).map render

/-- Newline-joining of rendered lines, as the source's final join does. -/
def joinLines : List (List Char) → List Char
  | [] => []
  | [l] => l
  | l :: ls => l ++ '\n' :: joinLines ls

/-- The full rendered script text of FlasherService.build_script. -/
def build_script (iface : List Char) (speed_khz : Nat)
    (target firmware_file : List Char) : List Char :=
  joinLines (script_lines iface speed_khz target firmware_file)

/-- The input text of the spec scenario for the error-collection order: the
RAMCode-verification sentence followed by the preparation-failure
sentence. -/
def c3Input : List Char :=
  ("Verification of RAMCode failed @ address 0x1FFFE000. Failed to prepare for programming.").data

/-- The success-marker clause as the spec words it, for comparison with
the source's searches: the text contains one of the three literal marker
strings as a case-insensitive substring.  This follows the spec's words,
not the source: the source's Program-&-Verify pattern also accepts
whitespace other than one space around the ampersand, including none. -/
def claimedLiteralMarker (t : List Char) : Bool :=
  containsSub (toLowerList (("O.K.").data)) (toLowerList t) ||
  containsSub (toLowerList (("Program & Verify").data)) (toLowerList t) ||
  containsSub (toLowerList (("Program speed").data)) (toLowerList t)

/-- Claim C7: an empty raw output yields a failure outcome whose errors
list is exactly the single no-output message naming the tool. -/
theorem empty_output_failure :
    analyze_output [] =
      { success := false, errors := [noOutputMsg], warnings := [],
        raw_output := [] } := by
  decide

/-- Counterexample for claim C1: the claimed equivalence names three
literal markers, but on the input below analyze_output reports success
with an empty errors list and a loadfile tag present while none of the
three literal markers occurs in the text: the source's Program-&-Verify
pattern also accepts an ampersand with no surrounding whitespace, so the
only-if direction of the claimed equivalence fails. -/
theorem literal_marker_counterexample :
    (analyze_output (("loadfile Program&Verify").data)).success = true ∧
    (analyze_output (("loadfile Program&Verify").data)).errors = [] ∧
    containsSub loadfileTag
      (toLowerList (pyStrip (("loadfile Program&Verify").data))) = true ∧
    claimedLiteralMarker (("loadfile Program&Verify").data) = false ∧
    claimedLiteralMarker (pyStrip (("loadfile Program&Verify").data)) = false := by
  decide

/-- Claim C1 as amended: analyze_output reports success exactly when the
outcome carries no errors, one of the three success-marker searches of
the source succeeds on the analyzed text (case-insensitive O.K., Program
speed, or Program and Verify joined by an ampersand with optional
whitespace on either side), and the lowercase loadfile tag occurs in the
analyzed text. -/
theorem success_iff_markers (text : List Char) :
    (analyze_output text).success = true ↔
      ((analyze_output text).errors = [] ∧
        successMarkerFound (pyStrip text) = true ∧
        containsSub loadfileTag (toLowerList (pyStrip text)) = true) := by
  by_cases h0 : text = []
  · subst h0
    decide
  · rcases h1 : collectErrors (pyStrip text) with _ | ⟨e, es⟩
    · cases hload : containsSub loadfileTag (toLowerList (pyStrip text)) <;>
        cases hok : okSearch (pyStrip text) <;>
        cases hpv : pvSearch (pyStrip text) <;>
        cases hps : psSearch (pyStrip text) <;>
        simp [analyze_output, successMarkerFound, h0, h1, hload, hok, hpv, hps]
    · simp [analyze_output, h0, h1]

/-- Claim C2: whenever the fatal-error scan collects at least one match,
analyze_output reports failure and its errors list is exactly the
collected matches, whatever else the text contains. -/
theorem errors_veto_success (text : List Char)
    (h : collectErrors (pyStrip text) ≠ []) :
    (analyze_output text).success = false ∧
      (analyze_output text).errors = collectErrors (pyStrip text) := by
  have h0 : text ≠ [] := by
    intro he
    exact h (by rw [he]; decide)
  simp [analyze_output, h0, h]

/-- Witness for claim C2 at a text that carries an error-pattern match
together with an O.K. marker and a loadfile tag: failure still wins. -/
theorem errors_veto_success_witness :
    collectErrors (pyStrip (("Error: flash fault O.K. loadfile done").data)) ≠ [] ∧
    okSearch (pyStrip (("Error: flash fault O.K. loadfile done").data)) = true ∧
    containsSub loadfileTag
      (toLowerList (pyStrip (("Error: flash fault O.K. loadfile done").data))) = true ∧
    (analyze_output (("Error: flash fault O.K. loadfile done").data)).success = false ∧
    (analyze_output (("Error: flash fault O.K. loadfile done").data)).errors =
      collectErrors (pyStrip (("Error: flash fault O.K. loadfile done").data)) :=
  ⟨by decide, by decide, by decide,
    (errors_veto_success (("Error: flash fault O.K. loadfile done").data) (by decide)).1,
    (errors_veto_success (("Error: flash fault O.K. loadfile done").data) (by decide)).2⟩

/-- Claim C8: a non-empty text with no fatal-error match and no lowercase
loadfile tag fails with exactly the missing-loadfile message. -/
theorem missing_loadfile_failure (text : List Char) (h0 : text ≠ [])
    (h1 : collectErrors (pyStrip text) = [])
    (h2 : containsSub loadfileTag (toLowerList (pyStrip text)) = false) :
    analyze_output text =
      { success := false, errors := [noLoadfileMsg], warnings := [],
        raw_output := text } := by
  simp [analyze_output, h0, h1, h2]

/-- Witness for claim C8 at a text that even carries an O.K. marker: the
missing loadfile tag still forces failure. -/
theorem missing_loadfile_failure_witness :
    (("O.K. done").data ≠ ([] : List Char)) ∧
    collectErrors (pyStrip (("O.K. done").data)) = [] ∧
    containsSub loadfileTag (toLowerList (pyStrip (("O.K. done").data))) = false ∧
    okSearch (pyStrip (("O.K. done").data)) = true ∧
    analyze_output (("O.K. done").data) =
      { success := false, errors := [noLoadfileMsg], warnings := [],
        raw_output := ("O.K. done").data } :=
  ⟨by decide, by decide, by decide, by decide,
    missing_loadfile_failure (("O.K. done").data) (by decide) (by decide) (by decide)⟩

/-- A list whose characters all satisfy the predicate drops to nil. -/
theorem dropWhile_eq_nil_of_all {p : Char → Bool} :
    ∀ l : List Char, (∀ c ∈ l, p c = true) → l.dropWhile p = [] := by
  intro l h
  induction l with
  | nil => rfl
  | cons x xs ih =>
    rw [List.dropWhile_cons, if_pos (h x (List.mem_cons_self x xs))]
    exact ih fun c hc => h c (List.mem_cons_of_mem x hc)

/-- Stripping an all-whitespace text yields the empty text. -/
theorem pyStrip_eq_nil_of_all {l : List Char}
    (h : ∀ c ∈ l, isPySpace c = true) : pyStrip l = [] := by
  unfold pyStrip
  rw [dropWhile_eq_nil_of_all l h]
  rfl

/-- Claim C10: a non-empty all-whitespace text is not classified as empty
output; the stripped text is empty, no error pattern matches it, and the
missing-loadfile rule fires instead. -/
theorem whitespace_only_not_empty (text : List Char) (h0 : text ≠ [])
    (hw : ∀ c ∈ text, isPySpace c = true) :
    analyze_output text =
      { success := false, errors := [noLoadfileMsg], warnings := [],
        raw_output := text } ∧
      (analyze_output text).errors ≠ [noOutputMsg] := by
  have hs : pyStrip text = [] := pyStrip_eq_nil_of_all hw
  have h1 : collectErrors (pyStrip text) = [] := by rw [hs]; decide
  have h2 : containsSub loadfileTag (toLowerList (pyStrip text)) = false := by
    rw [hs]; decide
  have hmain : analyze_output text =
      { success := false, errors := [noLoadfileMsg], warnings := [],
        raw_output := text } := by
    simp [analyze_output, h0, h1, h2]
  refine ⟨hmain, ?_⟩
  rw [hmain]
  exact (by decide : [noLoadfileMsg] ≠ [noOutputMsg])

/-- Witness for claim C10 at a single-space input. -/
theorem whitespace_only_not_empty_witness :
    analyze_output ((" ").data) =
      { success := false, errors := [noLoadfileMsg], warnings := [],
        raw_output := (" ").data } ∧
      (analyze_output ((" ").data)).errors ≠ [noOutputMsg] :=
  whitespace_only_not_empty ((" ").data) (by decide) (by decide)

/-- Counterexample for claim C3: on the spec input, whose
RAMCode-verification sentence precedes the preparation-failure sentence,
the errors list holds the preparation-failure match first, because the
loop iterates over the pattern list and the preparation-failure pattern is
listed before the verification pattern; the list is therefore not in order
of appearance in the text. -/
theorem error_order_counterexample :
    (analyze_output c3Input).success = false ∧
    (analyze_output c3Input).errors =
      [("Failed to prepare for programming").data,
        ("Verification of RAMCode failed").data] ∧
    (analyze_output c3Input).errors ≠
      [("Verification of RAMCode failed").data,
        ("Failed to prepare for programming").data] := by
  decide

/-- Claim C3 as amended: analyze_output collects every match of every
fatal-error pattern, ordered by the fixed pattern list (matches of one
pattern in text order), not by overall order of appearance; on the spec
input both matched substrings appear, the preparation-failure match first,
and a pattern occurring twice contributes both its matches. -/
theorem error_pattern_order :
    (analyze_output c3Input).success = false ∧
    (analyze_output c3Input).errors =
      [("Failed to prepare for programming").data,
        ("Verification of RAMCode failed").data] ∧
    (analyze_output (("Cannot connect x Cannot connect").data)).errors =
      [("Cannot connect").data, ("Cannot connect").data] := by
  decide

/-- Claim C4: for every interface, speed, target and firmware file, the
built script opens with device line, interface, speed, connect, then the
unconditional unlock-kinetis line, then reset and erase — the unlock is
emitted for IO and non-IO targets alike, after connect and before reset
and erase. -/
theorem unlock_unconditional (iface : List Char) (speed : Nat)
    (target fw : List Char) :
    (script_lines iface speed target fw).take 7 =
      [ get_device_line target,
        ("IF ").data ++ iface,
        ("Speed ").data ++ natDec speed,
        ("connect").data,
        ("unlock kinetis").data,
        ("r").data,
        ("erase").data ] := rfl

/-- Claim C6: a target whose upper-casing is none of the three table keys
resolves to the IO device line, and the built script's first line is that
device line. -/
theorem unknown_target_fallback (target iface fw : List Char) (speed : Nat)
    (h1 : toUpperList target ≠ ("IO").data)
    (h2 : toUpperList target ≠ ("DELSYS").data)
    (h3 : toUpperList target ≠ ("LOGO").data) :
    get_device_line target = ioDeviceLine ∧
      (script_lines iface speed target fw).head? = some ioDeviceLine := by
  have hg : get_device_line target = ioDeviceLine := by
    unfold get_device_line
    rw [if_neg h1, if_neg h2, if_neg h3]
  refine ⟨hg, ?_⟩
  have hh : (script_lines iface speed target fw).head? =
      some (get_device_line target) := rfl
  rw [hh, hg]

/-- Witness for claim C6 at the unknown target K32. -/
theorem unknown_target_fallback_witness :
    get_device_line (("K32").data) = ioDeviceLine ∧
      (script_lines (("SWD").data) 4000 (("K32").data) (("f.bin").data)).head? =
        some ioDeviceLine :=
  unknown_target_fallback (("K32").data) (("SWD").data) (("f.bin").data) 4000
    (by decide) (by decide) (by decide)

/-- Every device line the table can produce differs from the IFR-FOPT
comment line. -/
theorem ifr_ne_device_line (t : List Char) :
    ¬ ifrFoptComment = get_device_line t := by
  unfold get_device_line
  split
  · decide
  split
  · decide
  split
  · decide
  · decide

/-- Claim C5: when the upper-cased target is IO, the built script has
twenty-one lines and, from the load-file line on, consists of the
load-file line, the IFR-FOPT comment, the four register writes of the
option-field sequence, a sleep, and the final reset, go and exit; when the
upper-cased target is not IO, the IFR-FOPT comment line occurs nowhere in
the script. -/
theorem ifr_fopt_io_only (iface : List Char) (speed : Nat)
    (target fw : List Char) :
    (toUpperList target = ("IO").data →
      (script_lines iface speed target fw).length = 21 ∧
      (script_lines iface speed target fw).drop 11 =
        [ ("loadfile \"").data ++ fw ++ ("\" 0x0").data,
          ifrFoptComment,
          ("w4 0x40023004, 0x43840000").data,
          ("w4 0x40023008, 0xFFFFF3FF").data,
          ("w1 0x40023000, 0x00000070").data,
          ("w1 0x40023000, 0x00000080").data,
          ("Sleep 5").data,
          ("r").data,
          ("g").data,
          ("exit").data ]) ∧
    (toUpperList target ≠ ("IO").data →
      ifrFoptComment ∉ script_lines iface speed target fw) := by
  constructor
  · intro h
    unfold script_lines build_script_cmds
    rw [if_pos h]
    exact ⟨rfl, rfl⟩
  · intro h hmem
    unfold script_lines build_script_cmds at hmem
    rw [if_neg h] at hmem
    simp only [List.nil_append, List.cons_append, List.map_cons, List.map_nil,
      List.mem_cons, List.not_mem_nil, or_false] at hmem
    rcases hmem with h1 | h1 | h1 | h1 | h1 | h1 | h1 | h1 | h1 | h1 | h1 | h1 | h1 | h1 | h1
    · exact ifr_ne_device_line target h1
    · exact absurd (congrArg List.head? h1)
        (by decide : ¬ (some '/' = some 'I'))
    · exact absurd (congrArg List.head? h1)
        (by decide : ¬ (some '/' = some 'S'))
    · exact absurd h1 (by decide)
    · exact absurd h1 (by decide)
    · exact absurd h1 (by decide)
    · exact absurd h1 (by decide)
    · exact absurd h1 (by decide)
    · exact absurd h1 (by decide)
    · exact absurd h1 (by decide)
    · exact absurd h1 (by decide)
    · exact absurd (congrArg List.head? h1)
        (by decide : ¬ (some '/' = some 'l'))
    · exact absurd h1 (by decide)
    · exact absurd h1 (by decide)
    · exact absurd h1 (by decide)

/-- Witness for claim C5, at the IO target for the first part and at the
LOGO target for the second. -/
theorem ifr_fopt_io_only_witness :
    ((script_lines (("SWD").data) 4000 (("io").data) (("f.axf").data)).length = 21 ∧
      (script_lines (("SWD").data) 4000 (("io").data) (("f.axf").data)).drop 11 =
        [ ("loadfile \"").data ++ ("f.axf").data ++ ("\" 0x0").data,
          ifrFoptComment,
          ("w4 0x40023004, 0x43840000").data,
          ("w4 0x40023008, 0xFFFFF3FF").data,
          ("w1 0x40023000, 0x00000070").data,
          ("w1 0x40023000, 0x00000080").data,
          ("Sleep 5").data,
          ("r").data,
          ("g").data,
          ("exit").data ]) ∧
    ifrFoptComment ∉ script_lines (("SWD").data) 4000 (("logo").data) (("f.axf").data) :=
  ⟨(ifr_fopt_io_only (("SWD").data) 4000 (("io").data) (("f.axf").data)).1 (by decide),
    (ifr_fopt_io_only (("SWD").data) 4000 (("logo").data) (("f.axf").data)).2 (by decide)⟩

/-- Every hexadecimal digit character produced for a value below sixteen
is an uppercase hexadecimal digit. -/
theorem hexDigitU_isHexUpper : ∀ d, d < 16 → isHexUpper (hexDigitU d) = true := by
  decide

/-- The digit character of a value below sixteen evaluates back to that
value. -/
theorem hexCharVal_hexDigitU : ∀ d, d < 16 → hexCharVal (hexDigitU d) = d := by
  decide

/-- The digit accumulator ignores its fuel once the fuel exceeds the
number. -/
theorem hexDigitsAux_fuelIrrel : ∀ f1 f2 n acc, n < f1 → n < f2 →
    hexDigitsAux f1 n acc = hexDigitsAux f2 n acc := by
  intro f1
  induction f1 with
  | zero => intro f2 n acc h1 _; exact absurd h1 (Nat.not_lt_zero n)
  | succ a ih =>
    intro f2 n acc h1 h2
    cases f2 with
    | zero => exact absurd h2 (Nat.not_lt_zero n)
    | succ b =>
      by_cases hn : n < 16
      · simp [hexDigitsAux, hn]
      · have hdiv : n / 16 < n := Nat.div_lt_self (by omega) (by omega)
        simp only [hexDigitsAux, if_neg hn]
        exact ih b (n / 16) _ (by omega) (by omega)

/-- The digit accumulator prepends the digits of the number to its
accumulator. -/
theorem hexDigitsAux_append : ∀ fuel n acc, n < fuel →
    hexDigitsAux fuel n acc = hexUpper n ++ acc := by
  intro fuel
  induction fuel with
  | zero => intro n acc h; exact absurd h (Nat.not_lt_zero n)
  | succ a ih =>
    intro n acc h
    by_cases hn : n < 16
    · simp [hexDigitsAux, hexUpper, hn]
    · have hdiv : n / 16 < n := Nat.div_lt_self (by omega) (by omega)
      have ha : n / 16 < a := by omega
      have l1 : hexDigitsAux (a + 1) n acc =
          hexDigitsAux a (n / 16) (hexDigitU (n % 16) :: acc) := by
        simp [hexDigitsAux, hn]
      have l2 : hexUpper n = hexDigitsAux n (n / 16) [hexDigitU (n % 16)] := by
        simp [hexUpper, hexDigitsAux, hn]
      have l3 : hexDigitsAux n (n / 16) [hexDigitU (n % 16)] =
          hexDigitsAux a (n / 16) [hexDigitU (n % 16)] :=
        hexDigitsAux_fuelIrrel n a (n / 16) _ hdiv ha
      rw [l1, ih _ _ ha, l2, l3, ih _ _ ha]
      simp

/-- Peeling the least significant digit off the hexadecimal rendering. -/
theorem hexUpper_step (n : Nat) (hn : ¬ n < 16) :
    hexUpper n = hexUpper (n / 16) ++ [hexDigitU (n % 16)] := by
  have hdiv : n / 16 < n := Nat.div_lt_self (by omega) (by omega)
  have l2 : hexUpper n = hexDigitsAux n (n / 16) [hexDigitU (n % 16)] := by
    simp [hexUpper, hexDigitsAux, hn]
  rw [l2, hexDigitsAux_append n (n / 16) _ hdiv]

/-- Appending one digit multiplies the denoted value by sixteen and adds
the digit's value. -/
theorem hexVal_append_digit (xs : List Char) (d : Char) :
    hexVal (xs ++ [d]) = hexVal xs * 16 + hexCharVal d := by
  unfold hexVal
  rw [List.foldl_append]
  rfl

/-- The hexadecimal rendering of a number denotes the number. -/
theorem hexVal_hexUpper : ∀ n, hexVal (hexUpper n) = n := by
  intro n
  induction n using Nat.strong_induction_on with
  | _ n ih =>
    by_cases hn : n < 16
    · have h1 : hexUpper n = [hexDigitU n] := by
        simp [hexUpper, hexDigitsAux, hn]
      rw [h1]
      have := hexCharVal_hexDigitU n hn
      simp [hexVal]
      omega
    · have hdiv : n / 16 < n := Nat.div_lt_self (by omega) (by omega)
      rw [hexUpper_step n hn, hexVal_append_digit, ih _ hdiv,
        hexCharVal_hexDigitU _ (Nat.mod_lt _ (by omega))]
      omega

/-- The hexadecimal rendering of a number below a power of sixteen has at
most that many digits. -/
theorem hexDigitsAux_length_le : ∀ fuel n acc k, 1 ≤ k → n < 16 ^ k →
    (hexDigitsAux fuel n acc).length ≤ k + acc.length := by
  intro fuel
  induction fuel with
  | zero =>
    intro n acc k hk _
    simp [hexDigitsAux]
  | succ a ih =>
    intro n acc k hk hn
    by_cases h16 : n < 16
    · simp [hexDigitsAux, h16]
      omega
    · simp only [hexDigitsAux, if_neg h16]
      have hk2 : 2 ≤ k := by
        by_contra hlt
        have hk1 : k = 1 := by omega
        rw [hk1] at hn
        simp at hn
        omega
      have hpow : (16 : Nat) ^ k = 16 ^ (k - 1) * 16 := by
        rw [← pow_succ]
        congr 1
        omega
      have hdivlt : n / 16 < 16 ^ (k - 1) :=
        (Nat.div_lt_iff_lt_mul (by omega)).mpr (by omega)
      have := ih (n / 16) (hexDigitU (n % 16) :: acc) (k - 1) (by omega) hdivlt
      simp only [List.length_cons] at this
      omega

/-- The eight-zero-padded rendering of a thirty-two-bit value has exactly
eight digits. -/
theorem hex8_length (n : Nat) (h : n < 4294967296) : (hex8 n).length = 8 := by
  have h16 : n < 16 ^ 8 := by
    have : (16 : Nat) ^ 8 = 4294967296 := by norm_num
    omega
  have hle : (hexUpper n).length ≤ 8 := by
    have := hexDigitsAux_length_le (n + 1) n [] 8 (by omega) h16
    simpa using this
  unfold hex8 padZeros
  simp only [List.length_append, List.length_replicate]
  omega

/-- Every character of the digit accumulator's output is an uppercase
hexadecimal digit, provided the accumulator's characters are. -/
theorem hexDigitsAux_mem_isHexUpper : ∀ fuel n acc,
    (∀ c ∈ acc, isHexUpper c = true) →
    ∀ c ∈ hexDigitsAux fuel n acc, isHexUpper c = true := by
  intro fuel
  induction fuel with
  | zero => intro n acc hacc; simpa [hexDigitsAux] using hacc
  | succ a ih =>
    intro n acc hacc c hc
    by_cases h16 : n < 16
    · simp only [hexDigitsAux, if_pos h16] at hc
      rcases List.mem_cons.mp hc with rfl | hmem
      · exact hexDigitU_isHexUpper n h16
      · exact hacc c hmem
    · simp only [hexDigitsAux, if_neg h16] at hc
      refine ih (n / 16) _ ?_ c hc
      intro d hd
      rcases List.mem_cons.mp hd with rfl | hd
      · exact hexDigitU_isHexUpper _ (Nat.mod_lt _ (by omega))
      · exact hacc d hd

/-- Every character of an eight-zero-padded rendering is an uppercase
hexadecimal digit. -/
theorem hex8_mem_isHexUpper (n : Nat) : ∀ c ∈ hex8 n, isHexUpper c = true := by
  intro c hc
  unfold hex8 padZeros at hc
  rcases List.mem_append.mp hc with hc | hc
  · rw [List.eq_of_mem_replicate hc]
    decide
  · exact hexDigitsAux_mem_isHexUpper (n + 1) n [] (by simp) c hc

/-- Zero-padding does not change the denoted value. -/
theorem hexVal_padZeros (w : Nat) (ds : List Char) :
    hexVal (padZeros w ds) = hexVal ds := by
  unfold padZeros hexVal
  rw [List.foldl_append]
  have hz : ∀ k, List.foldl (fun a c => a * 16 + hexCharVal c) 0
      (List.replicate k '0') = 0 := by
    intro k
    induction k with
    | zero => rfl
    | succ m ihm =>
      rw [List.replicate_succ, List.foldl_cons]
      have h0 : (0 * 16 + hexCharVal '0') = 0 := by decide
      rw [h0, ihm]
  rw [hz]

/-- The eight-zero-padded rendering of a number denotes the number. -/
theorem hexVal_hex8 (n : Nat) : hexVal (hex8 n) = n := by
  unfold hex8
  rw [hexVal_padZeros]
  exact hexVal_hexUpper n

/-- Claim C9: a register write with width one, two or four and a
thirty-two-bit address and value renders as a w line whose width is one
decimal digit and whose address and value render as exactly eight
uppercase hexadecimal digits after a 0x prefix, separated by a comma and a
space; a load-file command renders as a quoted path between the loadfile
keyword and the 0x0 offset; and a comment renders as a line opening with
two slashes. -/
theorem render_formats (w a v : Nat) (p c : List Char)
    (hw : w = 1 ∨ w = 2 ∨ w = 4) (ha : a < 4294967296) (hv : v < 4294967296) :
    render (.writeRegister w a v) =
      ("w").data ++ natDec w ++ (" 0x").data ++ hex8 a ++
        (", 0x").data ++ hex8 v ∧
    natDec w = [decDigit w] ∧
    (hex8 a).length = 8 ∧
    (hex8 v).length = 8 ∧
    (∀ ch ∈ hex8 a, isHexUpper ch = true) ∧
    (∀ ch ∈ hex8 v, isHexUpper ch = true) ∧
    hexVal (hex8 a) = a ∧
    hexVal (hex8 v) = v ∧
    render (.loadFile p) = ("loadfile \"").data ++ p ++ ("\" 0x0").data ∧
    leadsWith (("//").data) (render (.comment c)) = true := by
  refine ⟨rfl, ?_, hex8_length a ha, hex8_length v hv, hex8_mem_isHexUpper a,
    hex8_mem_isHexUpper v, hexVal_hex8 a, hexVal_hex8 v, rfl, rfl⟩
  rcases hw with rfl | rfl | rfl <;> rfl

/-- Witness for claim C9 at the IFR-FOPT register write and a concrete
path and comment. -/
theorem render_formats_witness :
    render (.writeRegister 4 1073885188 1132462080) =
      ("w").data ++ natDec 4 ++ (" 0x").data ++ hex8 1073885188 ++
        (", 0x").data ++ hex8 1132462080 ∧
    natDec 4 = [decDigit 4] ∧
    (hex8 1073885188).length = 8 ∧
    (hex8 1132462080).length = 8 ∧
    (∀ ch ∈ hex8 1073885188, isHexUpper ch = true) ∧
    (∀ ch ∈ hex8 1132462080, isHexUpper ch = true) ∧
    hexVal (hex8 1073885188) = 1073885188 ∧
    hexVal (hex8 1132462080) = 1132462080 ∧
    render (.loadFile (("C:/f.axf").data)) =
      ("loadfile \"").data ++ ("C:/f.axf").data ++ ("\" 0x0").data ∧
    leadsWith (("//").data) (render (.comment (("note").data))) = true :=
  render_formats 4 1073885188 1132462080 (("C:/f.axf").data) (("note").data)
    (Or.inr (Or.inr rfl)) (by decide) (by decide)

end AutoFlasher
